import Mathlib

/-!
Verification of the `version_flow` package (files `core.py`, `exceptions.py`).

Strings are modelled as `List Char` (ASCII); a Lean `String` literal `s` is
injected via `pyStr s := s.data`.  Machine integers are `Int` (Python ints are
unbounded).  Fallible code returns `Except PyErr`; the outcome of each
`requests.get` call is an explicit `Transport` parameter (either a response or
a transport-layer exception); warnings emitted by `warnings.warn` are collected
in a list.
-/

deriving instance DecidableEq for Except

namespace VersionFlowSpec

/-- Inject a Lean string literal into the `List Char` model. -/
def pyStr (s : String) : List Char := s.data

/-- Exception classes raised by `core.py` (`exceptions.py` plus the built-in
`ValueError` raised by `int()` inside `Version.parse`), together with
propagated transport exceptions from `requests.get`. -/
inductive TransportExc where
  | connectionError
  | connectTimeout
  | readTimeout
  | tooManyRedirects
deriving DecidableEq, Repr

inductive PyErr where
  | gitHubTokenErr
  | serverResponseErr
  | releaseTagErr
  | filesNotSetErr
  | valueError
  | transport (e : TransportExc)
deriving DecidableEq, Repr

/-- Warning categories used by `warnings.warn` in `core.py`. -/
inductive Warn where
  | privateRepositoryWarning
  | downloadDirectoryWarning
deriving DecidableEq, Repr

/-! ### Python `int()` on a string (base 10, ASCII)

`int(s)` strips surrounding whitespace, accepts one optional sign, then a
nonempty digit sequence in which single underscores may appear strictly
between digits. -/

/-- ASCII whitespace (space, tab, newline, carriage return, vertical tab,
form feed), as stripped by `int()`. -/
def isPyWS (c : Char) : Bool :=
  c.toNat == 32 || c.toNat == 9 || c.toNat == 10 ||
  c.toNat == 13 || c.toNat == 11 || c.toNat == 12

/-- ASCII decimal digit `'0'`-`'9'`. -/
def isDigitChar (c : Char) : Bool := 48 ≤ c.toNat && c.toNat ≤ 57

def pyStripWS (l : List Char) : List Char :=
  ((l.dropWhile isPyWS).reverse.dropWhile isPyWS).reverse

def digitVal (c : Char) : Nat := c.toNat - 48

/-- Digits after the first one: digits, with single underscores allowed only
between digits. Accumulates the base-10 value. -/
def digitsCore (acc : Nat) : List Char → Option Nat
  | [] => some acc
  | c :: rest =>
    if isDigitChar c then digitsCore (acc * 10 + digitVal c) rest
    else if c = '_' then
      match rest with
      | [] => none
      | d :: rest2 =>
        if isDigitChar d then digitsCore (acc * 10 + digitVal d) rest2 else none
    else none

/-- An unsigned decimal numeral: nonempty, starts with a digit. -/
def pyUnsignedInt : List Char → Option Nat
  | [] => none
  | c :: rest => if isDigitChar c then digitsCore (digitVal c) rest else none

/-- Sign handling of `int()`, applied to the whitespace-stripped input. -/
def pyIntCore : List Char → Option Int
  | [] => none
  | c :: rest =>
    if c = '-' then (pyUnsignedInt rest).map (fun n => -(n : Int))
    else if c = '+' then (pyUnsignedInt rest).map (fun n => (n : Int))
    else (pyUnsignedInt (c :: rest)).map (fun n => (n : Int))

/-- Python `int(s)` for base 10. -/
def pyInt (l : List Char) : Option Int := pyIntCore (pyStripWS l)

/-! ### Python `str.split(sep)` for a one-character separator

`''.split('.') = ['']`; in general a string with `n` separators yields
`n + 1` (possibly empty) parts. -/

def pySplit (sep : Char) : List Char → List (List Char)
  | [] => [[]]
  | c :: rest =>
    let r := pySplit sep rest
    if c = sep then [] :: r
    else
      match r with
      | h :: t => (c :: h) :: t
      | [] => [[c]]

/-! ### `Version` (`core.py` lines 224-262) -/

/-- `Version.parse`: strips one leading `'v'`, splits on `'.'`, converts the
first segment with `int()` (required) and the second and third when present
(defaulting to 0).  Segments beyond the third are never consulted.  A failing
`int()` conversion raises `ValueError`. -/
def stripLeadingV (version : List Char) : List Char :=
  match version with
  | 'v' :: rest => rest
  | _ => version

def Version.parse (version : List Char) : Except PyErr (Int × Int × Int) :=
  let version' := stripLeadingV version
  match pySplit '.' version' with
  | [] => .error .valueError   -- unreachable: pySplit never returns []
  | p0 :: rest =>
    match pyInt p0 with
    | none => .error .valueError
    | some major =>
      match (match rest with | [] => some (0 : Int) | p1 :: _ => pyInt p1) with
      | none => .error .valueError
      | some minor =>
        match (match rest with | _ :: p2 :: _ => pyInt p2 | _ => some (0 : Int)) with
        | none => .error .valueError
        | some patch => .ok (major, minor, patch)

/-- Decimal rendering of a natural number, fuel-structured so that it reduces
in the kernel; `fuel ≥ n` is always enough fuel. -/
def natStrAux : Nat → Nat → List Char
  | 0, n => [Char.ofNat (48 + n % 10)]
  | fuel + 1, n =>
    if n < 10 then [Char.ofNat (48 + n)]
    else natStrAux fuel (n / 10) ++ [Char.ofNat (48 + n % 10)]

/-- Python `str(n)` for a non-negative integer. -/
def natStr (n : Nat) : List Char := natStrAux n n

def intStr (i : Int) : List Char :=
  if i < 0 then '-' :: natStr i.natAbs else natStr i.toNat

/-- `'v{}.{}.{}'.format(t[0], t[1], t[2])`. -/
def fmtVersion (t : Int × Int × Int) : List Char :=
  'v' :: (intStr t.1 ++ '.' :: (intStr t.2.1 ++ '.' :: intStr t.2.2))

/-- The `Version` object: its only attribute is the stored string
`self.version`. -/
structure Version where
  version : List Char
deriving DecidableEq, Repr

/-- `Version.__init__`: parses the argument and stores the canonical
`'v{major}.{minor}.{patch}'` string. -/
def Version.init (version : List Char) : Except PyErr Version := do
  let parsed ← Version.parse version
  pure ⟨fmtVersion parsed⟩

/-- Python `<` on 3-tuples: lexicographic. -/
def tupleLt (a b : Int × Int × Int) : Bool :=
  a.1 < b.1 || (a.1 = b.1 && (a.2.1 < b.2.1 || (a.2.1 = b.2.1 && a.2.2 < b.2.2)))

/-- `Version.is_greater_than`: parses the stored string and the argument,
takes `max` of the two-element list (Python `max` keeps the first element on
ties), formats the maximum and compares the result with the stored string. -/
def Version.is_greater_than (self : Version) (version_to_check : List Char) :
    Except PyErr Bool := do
  let p0 ← Version.parse self.version
  let p1 ← Version.parse version_to_check
  let latest := if tupleLt p0 p1 then p1 else p0
  let latest_in_string := fmtVersion latest
  pure (latest_in_string == self.version)

/-! ### `VersionFlow` (`core.py` lines 9-222)

The outcome of each `requests.get` call is supplied as a `Transport` value: a
transport-layer exception, or a response carrying a status code and the
optional `tag_name` field of its JSON payload. -/

/-- A GitHub release-endpoint response: HTTP status code and the `tag_name`
field of the JSON payload (`none` when the payload lacks it). -/
structure GHResponse where
  status : Nat
  tagName : Option (List Char)
deriving DecidableEq, Repr

inductive Transport where
  | exc (e : TransportExc)
  | resp (r : GHResponse)
deriving DecidableEq, Repr

/-- The two instance attributes set by `VersionFlow.__init__`. -/
structure VFState where
  internet_status : Bool
  update_available : Bool
deriving DecidableEq, Repr

/-- `VersionFlow.__init__`: both flags start `False`. -/
def VFState.init : VFState := ⟨false, false⟩

/-- `VersionFlow.check_internet_connection`: issues one GET; on a response,
sets `internet_status` to whether the status code is 200; an exception that is
a `requests.ConnectionError` or `requests.ConnectTimeout` is swallowed
(leaving the state unchanged), any other exception propagates. -/
def check_internet_connection (st : VFState) (outcome : Transport) :
    Except TransportExc VFState :=
  match outcome with
  | .resp r => .ok { st with internet_status := r.status == 200 }
  | .exc e =>
    if e = .connectionError || e = .connectTimeout then .ok st else .error e

/-- The headers dict built for a private-repository request. -/
structure Headers where
  authorization : List Char
  accept : List Char
deriving DecidableEq, Repr

def tokenHeaders (tok : List Char) : Headers :=
  ⟨pyStr "token " ++ tok, pyStr "application/vnd.github.v3+json"⟩

/-- The `if private and token != None / elif private / elif token != None`
chain shared verbatim by `check_for_updates_in_github` (lines 80-100) and
`update_from_github` (lines 176-196): returns the headers (or `none`) and the
warnings emitted, or raises `GitHubTokenErr`. -/
def resolveHeaders (private_ : Bool) (if_private_then_api_token : Option (List Char)) :
    Except PyErr (Option Headers × List Warn) :=
  match private_, if_private_then_api_token with
  | true, some tok => .ok (some (tokenHeaders tok), [])
  | true, none => .error .gitHubTokenErr
  | false, some tok => .ok (some (tokenHeaders tok), [.privateRepositoryWarning])
  | false, none => .ok (none, [])

/-- `response.raise_for_status()` wrapped in `try/except`: an HTTP error
status (4xx or 5xx) is re-raised as `ServerResponseErr`. -/
def raiseForStatus (r : GHResponse) : Except PyErr Unit :=
  if 400 ≤ r.status ∧ r.status < 600 then .error .serverResponseErr else .ok ()

/-- The `requests.get` step: a transport exception propagates uncaught. -/
def getResponse (net : Transport) : Except PyErr GHResponse :=
  match net with
  | .exc e => .error (.transport e)
  | .resp r => .ok r

/-- Result of `VersionFlow.update_from_github`: files saved under the
destination directory, whether the `update_method` hook was invoked, and the
warnings emitted. -/
structure UpdateResult where
  downloaded : List (List Char × List Char)
  hookInvoked : Bool
  warnings : List Warn
deriving DecidableEq, Repr

/-- `VersionFlow.update_from_github` (lines 153-210): defaults the download
directory (with a warning), resolves headers, performs the metadata GET and
`raise_for_status` — and then the function body ends (line 210 is an empty
comment): no file is downloaded and `update_method` is never called, whatever
`files_to_download`, `download_directory` and `update_method` were. -/
def update_from_github (cwd : List Char)
    (files_to_download : List (List Char)) (download_directory : Option (List Char))
    (private_ : Bool) (if_private_then_api_token : Option (List Char))
    (update_method : Option Unit) (net : Transport) :
    Except PyErr UpdateResult := do
  let (_dir, w1) := match download_directory with
    | none => (cwd, [Warn.downloadDirectoryWarning])
    | some d => (d, [])
  let (_headers, w2) ← resolveHeaders private_ if_private_then_api_token
  let r ← getResponse net
  let _ ← raiseForStatus r
  pure { downloaded := [], hookInvoked := false, warnings := w1 ++ w2 }

/-- Result of `VersionFlow.check_for_updates_in_github`: the new state, the
returned value (`some tag`, or `none` for Python `None`), and the warnings
emitted. -/
structure CheckResult where
  state : VFState
  returned : Option (List Char)
  warnings : List Warn
deriving DecidableEq, Repr

/-- `VersionFlow.check_for_updates_in_github` (lines 60-151): resolves
headers, performs the metadata GET, `raise_for_status` (re-raised as
`ServerResponseErr`), extracts `tag_name` (`ReleaseTagErr` when absent),
builds `Version(release_tag)` and tests `is_greater_than(current_version)`.
If greater: sets `update_available`, returns the tag when `update` is false;
otherwise requires `files_to_download` (`FilesNotSetErr` when `None`),
defaults the download directory with a warning, and delegates to
`update_from_github` (falling through, i.e. returning `None`).  If not
greater: returns `None` with the state untouched.  `netHere` is the outcome
of this function's own GET, `netUpd` the outcome of the nested
`update_from_github` GET. -/
def check_for_updates_in_github (cwd : List Char) (st : VFState)
    (current_version : List Char)
    (private_ : Bool) (if_private_then_api_token : Option (List Char))
    (update : Bool) (files_to_download : Option (List (List Char)))
    (download_directory : Option (List Char)) (update_method : Option Unit)
    (netHere : Transport) (netUpd : Transport) :
    Except PyErr CheckResult := do
  let (_headers, w1) ← resolveHeaders private_ if_private_then_api_token
  let r ← getResponse netHere
  let _ ← raiseForStatus r
  let release_tag ← match r.tagName with
    | none => Except.error PyErr.releaseTagErr
    | some t => Except.ok t
  let v ← Version.init release_tag
  let gt ← v.is_greater_than current_version
  if gt then
    let st' := { st with update_available := true }
    if !update then
      pure ⟨st', some release_tag, w1⟩
    else do
      match files_to_download with
      | none => Except.error PyErr.filesNotSetErr
      | some files => do
        let (dir, w2) := match download_directory with
          | none => (cwd, [Warn.downloadDirectoryWarning])
          | some d => (d, [])
        let ur ← update_from_github cwd files (some dir) private_
          if_private_then_api_token update_method netUpd
        pure ⟨st', none, w1 ++ w2 ++ ur.warnings⟩
  else
    pure ⟨st, none, w1⟩

/-! ### Helper lemmas: monadic reduction for `Except` -/

@[simp] theorem ok_bind {ε α β : Type} (a : α) (f : α → Except ε β) :
    (Except.ok a : Except ε α) >>= f = f a := rfl

@[simp] theorem error_bind {ε α β : Type} (e : ε) (f : α → Except ε β) :
    (Except.error e : Except ε α) >>= f = Except.error e := rfl

@[simp] theorem except_pure_eq {ε α : Type} (a : α) :
    (pure a : Except ε α) = Except.ok a := rfl

/-! ### Helper lemmas: decimal rendering round-trips through `pyInt` -/

/-- Base-10 value of a digit string. -/
def natVal (l : List Char) : Nat := l.foldl (fun a c => a * 10 + digitVal c) 0

theorem toNat_ne {a b : Char} (h : a.toNat ≠ b.toNat) : a ≠ b :=
  fun he => h (congrArg Char.toNat he)

theorem isDigitChar_iff {c : Char} :
    isDigitChar c = true ↔ 48 ≤ c.toNat ∧ c.toNat ≤ 57 := by
  simp [isDigitChar]

theorem isPyWS_of_digit {c : Char} (h : isDigitChar c = true) :
    isPyWS c = false := by
  rw [isDigitChar_iff] at h
  simp [isPyWS]
  omega

theorem toNat_ofNat_digit {d : Nat} (h : d < 10) :
    (Char.ofNat (48 + d)).toNat = 48 + d := by
  interval_cases d <;> decide

theorem isDigitChar_ofNat {d : Nat} (h : d < 10) :
    isDigitChar (Char.ofNat (48 + d)) = true := by
  rw [isDigitChar_iff, toNat_ofNat_digit h]
  omega

theorem digitVal_ofNat {d : Nat} (h : d < 10) :
    digitVal (Char.ofNat (48 + d)) = d := by
  rw [digitVal, toNat_ofNat_digit h]
  omega

theorem natStrAux_digits :
    ∀ fuel n c, c ∈ natStrAux fuel n → isDigitChar c = true := by
  intro fuel
  induction fuel with
  | zero =>
    intro n c hc
    simp only [natStrAux, List.mem_singleton] at hc
    subst hc
    exact isDigitChar_ofNat (Nat.mod_lt _ (by omega))
  | succ fuel ih =>
    intro n c hc
    simp only [natStrAux] at hc
    split at hc
    · simp only [List.mem_singleton] at hc
      subst hc
      exact isDigitChar_ofNat (by omega)
    · rcases List.mem_append.mp hc with h1 | h2
      · exact ih _ _ h1
      · simp only [List.mem_singleton] at h2
        subst h2
        exact isDigitChar_ofNat (Nat.mod_lt _ (by omega))

theorem natStrAux_ne_nil (fuel n : Nat) : natStrAux fuel n ≠ [] := by
  cases fuel with
  | zero => simp [natStrAux]
  | succ fuel =>
    simp only [natStrAux]
    split
    · simp
    · simp

theorem natVal_append_digit (l : List Char) (c : Char) :
    natVal (l ++ [c]) = natVal l * 10 + digitVal c := by
  simp [natVal, List.foldl_append]

theorem natVal_natStrAux :
    ∀ fuel n, n ≤ fuel → natVal (natStrAux fuel n) = n := by
  intro fuel
  induction fuel with
  | zero =>
    intro n hn
    interval_cases n
    decide
  | succ fuel ih =>
    intro n hn
    simp only [natStrAux]
    split
    · rename_i h10
      simp only [natVal, List.foldl_cons, List.foldl_nil]
      rw [digitVal_ofNat h10]
      omega
    · rename_i h10
      have hdiv : n / 10 ≤ fuel := by
        have h2 : n / 10 < n := Nat.div_lt_self (by omega) (by omega)
        omega
      rw [natVal_append_digit, ih (n / 10) hdiv,
        digitVal_ofNat (Nat.mod_lt _ (by omega))]
      omega

theorem natStr_digits {c : Char} {n : Nat} (h : c ∈ natStr n) :
    isDigitChar c = true := natStrAux_digits n n c h

theorem natStr_ne_nil (n : Nat) : natStr n ≠ [] := natStrAux_ne_nil n n

theorem natVal_natStr (n : Nat) : natVal (natStr n) = n :=
  natVal_natStrAux n n le_rfl

theorem digitsCore_cons (acc : Nat) (c : Char) (rest : List Char) :
    digitsCore acc (c :: rest) =
      if isDigitChar c then digitsCore (acc * 10 + digitVal c) rest
      else if c = '_' then
        (match rest with
          | [] => none
          | d :: rest2 =>
            if isDigitChar d then digitsCore (acc * 10 + digitVal d) rest2
            else none)
      else none := by
  rw [digitsCore.eq_def]

theorem digitsCore_digits :
    ∀ (l : List Char) (acc : Nat), (∀ c ∈ l, isDigitChar c = true) →
      digitsCore acc l = some (l.foldl (fun a c => a * 10 + digitVal c) acc) := by
  intro l
  induction l with
  | nil => intro acc _; simp [digitsCore]
  | cons c rest ih =>
    intro acc h
    have hc : isDigitChar c = true := h c (List.mem_cons_self c rest)
    rw [digitsCore_cons, if_pos hc, List.foldl_cons]
    exact ih _ (fun d hd => h d (List.mem_cons_of_mem c hd))

theorem pyUnsignedInt_digits {l : List Char} (hne : l ≠ [])
    (h : ∀ c ∈ l, isDigitChar c = true) :
    pyUnsignedInt l = some (natVal l) := by
  match l, hne with
  | c :: rest, _ =>
    have hc : isDigitChar c = true := h c (List.mem_cons_self c rest)
    simp only [pyUnsignedInt, hc, if_true]
    rw [digitsCore_digits rest _ (fun d hd => h d (List.mem_cons_of_mem c hd))]
    simp [natVal, digitVal]

theorem dropWhile_of_forall_false {p : Char → Bool} :
    ∀ l : List Char, (∀ c ∈ l, p c = false) → l.dropWhile p = l := by
  intro l h
  cases l with
  | nil => rfl
  | cons c rest =>
    rw [List.dropWhile_cons, h c (List.mem_cons_self c rest)]
    simp

theorem pyStripWS_of_forall_false {l : List Char}
    (h : ∀ c ∈ l, isPyWS c = false) : pyStripWS l = l := by
  rw [pyStripWS, dropWhile_of_forall_false l h,
    dropWhile_of_forall_false l.reverse (fun c hc => h c (List.mem_reverse.mp hc)),
    List.reverse_reverse]

theorem pyIntCore_digits {l : List Char} (hne : l ≠ [])
    (h : ∀ c ∈ l, isDigitChar c = true) :
    pyIntCore l = some ((natVal l : Nat) : Int) := by
  match l, hne with
  | c :: rest, _ =>
    have hc : isDigitChar c = true := h c (List.mem_cons_self c rest)
    have hc48 := isDigitChar_iff.mp hc
    have hminus : ('-' : Char).toNat = 45 := rfl
    have hplus : ('+' : Char).toNat = 43 := rfl
    simp only [pyIntCore]
    rw [if_neg (toNat_ne (by omega)), if_neg (toNat_ne (by omega)),
      pyUnsignedInt_digits (by simp) h]
    rfl

theorem pyInt_natStr (n : Nat) : pyInt (natStr n) = some (n : Int) := by
  have hd : ∀ c ∈ natStr n, isDigitChar c = true := fun c hc => natStr_digits hc
  have hs : pyStripWS (natStr n) = natStr n :=
    pyStripWS_of_forall_false (fun c hc => isPyWS_of_digit (hd c hc))
  rw [pyInt, hs, pyIntCore_digits (natStr_ne_nil n) hd, natVal_natStr]

theorem pyInt_intStr (i : Int) : pyInt (intStr i) = some i := by
  by_cases hi : i < 0
  · have hdig : ∀ c ∈ natStr i.natAbs, isDigitChar c = true :=
      fun c hc => natStr_digits hc
    have hws : ∀ c ∈ '-' :: natStr i.natAbs, isPyWS c = false := by
      intro c hc
      rcases List.mem_cons.mp hc with h1 | h2
      · subst h1; decide
      · exact isPyWS_of_digit (hdig c h2)
    rw [intStr, if_pos hi, pyInt, pyStripWS_of_forall_false hws]
    have hstep : pyIntCore ('-' :: natStr i.natAbs) =
        (pyUnsignedInt (natStr i.natAbs)).map (fun n => -(n : Int)) := by
      simp [pyIntCore]
    rw [hstep, pyUnsignedInt_digits (natStr_ne_nil _) hdig, natVal_natStr]
    show some (-(i.natAbs : Int)) = some i
    congr 1
    omega
  · rw [intStr, if_neg hi, pyInt]
    have hd : ∀ c ∈ natStr i.toNat, isDigitChar c = true :=
      fun c hc => natStr_digits hc
    rw [pyStripWS_of_forall_false (fun c hc => isPyWS_of_digit (hd c hc)),
      pyIntCore_digits (natStr_ne_nil _) hd, natVal_natStr]
    congr 1
    omega

/-! ### Helper lemmas: splitting the canonical version string -/

theorem pySplit_no_sep {sep : Char} :
    ∀ l : List Char, (∀ c ∈ l, c ≠ sep) → pySplit sep l = [l] := by
  intro l
  induction l with
  | nil => intro _; rfl
  | cons c rest ih =>
    intro h
    have hc : c ≠ sep := h c (List.mem_cons_self c rest)
    simp only [pySplit, if_neg hc, ih (fun d hd => h d (List.mem_cons_of_mem c hd))]

theorem pySplit_append {sep : Char} (rest : List Char) :
    ∀ l1 : List Char, (∀ c ∈ l1, c ≠ sep) →
      pySplit sep (l1 ++ sep :: rest) = l1 :: pySplit sep rest := by
  intro l1
  induction l1 with
  | nil => intro _; simp [pySplit]
  | cons c l1' ih =>
    intro h
    have hc : c ≠ sep := h c (List.mem_cons_self c l1')
    simp only [List.cons_append, pySplit, if_neg hc, List.append_eq,
      ih (fun d hd => h d (List.mem_cons_of_mem c hd))]

theorem intStr_no_dot {i : Int} {c : Char} (hc : c ∈ intStr i) : c ≠ '.' := by
  have hdot : ('.' : Char).toNat = 46 := rfl
  rw [intStr] at hc
  split at hc
  · rcases List.mem_cons.mp hc with h1 | h2
    · subst h1; decide
    · have := isDigitChar_iff.mp (natStr_digits h2)
      exact toNat_ne (by omega)
  · have := isDigitChar_iff.mp (natStr_digits hc)
    exact toNat_ne (by omega)

/-- Parsing the canonical string `'v{a}.{b}.{c}'` recovers the triple. -/
theorem parse_fmtVersion (t : Int × Int × Int) :
    Version.parse (fmtVersion t) = .ok t := by
  obtain ⟨a, b, c⟩ := t
  have hsplit :
      pySplit '.' (intStr a ++ '.' :: (intStr b ++ '.' :: intStr c)) =
        [intStr a, intStr b, intStr c] := by
    rw [pySplit_append _ _ (fun d hd => intStr_no_dot hd),
      pySplit_append _ _ (fun d hd => intStr_no_dot hd),
      pySplit_no_sep _ (fun d hd => intStr_no_dot hd)]
  simp only [Version.parse, fmtVersion, stripLeadingV, hsplit, pyInt_intStr]

/-! ### Claim theorems -/

/-- C1: the claim states that `is_greater_than` is a strict comparison, so
that two equal versions compare `false`.  The code computes `max` of the two
parsed triples and then tests whether its rendering equals the stored string,
which is a greater-or-EQUAL test: `Version('1.0.0').is_greater_than('1.0.0')`
evaluates to `True`, contradicting the claim (and the spec's scenario
`(1,0,0).isGreaterThan("1.0.0") = false`). -/
theorem claim_C1 :
    (Version.init (pyStr "1.0.0")).bind
      (fun v => v.is_greater_than (pyStr "1.0.0")) = .ok true ∧
    (Version.init (pyStr "2.0.0")).bind
      (fun v => v.is_greater_than (pyStr "1.9.9")) = .ok true ∧
    (Version.init (pyStr "1.0.0")).bind
      (fun v => v.is_greater_than (pyStr "1.0.1")) = .ok false := by
  refine ⟨by decide, by decide, by decide⟩

/-- C4: the claim states that a remote tag equal to `currentVersion` yields
"no update" with the update-available flag false.  Because `is_greater_than`
treats equal as greater (see C1), the code takes the update branch: with
current `"2.0.0"` and remote tag `"2.0.0"` the call returns the tag and sets
`update_available := true`. -/
theorem claim_C4 :
    check_for_updates_in_github (pyStr "/cwd") VFState.init (pyStr "2.0.0")
      false none false none none none
      (.resp ⟨200, some (pyStr "2.0.0")⟩) (.resp ⟨200, none⟩) =
    .ok ⟨⟨false, true⟩, some (pyStr "2.0.0"), []⟩ := by decide

/-- C5 counterexample: the claim states that ANY transport exception raised by
the probe's GET is swallowed; but the `except` clause catches only
`requests.ConnectionError` and `requests.ConnectTimeout`, so a
`requests.ReadTimeout` propagates out of `check_internet_connection`. -/
theorem claim_C5_counterexample :
    check_internet_connection VFState.init (.exc .readTimeout) =
      .error .readTimeout := by decide

/-- C5 amended: a `ConnectionError` or `ConnectTimeout` raised by the GET is
swallowed (the state, in particular `internet_status`, is left unchanged);
any other transport exception propagates; on a response, `internet_status`
is set to true exactly when the status code is 200. -/
theorem claim_C5 :
    (∀ st r, check_internet_connection st (.resp r) =
      .ok { st with internet_status := r.status == 200 }) ∧
    (∀ st, check_internet_connection st (.exc .connectionError) = .ok st) ∧
    (∀ st, check_internet_connection st (.exc .connectTimeout) = .ok st) ∧
    (∀ st, check_internet_connection st (.exc .readTimeout) =
      .error .readTimeout) ∧
    (∀ st, check_internet_connection st (.exc .tooManyRedirects) =
      .error .tooManyRedirects) :=
  ⟨fun _ _ => rfl, fun _ => rfl, fun _ => rfl, fun _ => rfl, fun _ => rfl⟩

/-- C6 counterexample: the claim states that parse fails whenever ANY present
dot-separated segment is non-numeric; but `Version.parse` only converts the
first three segments, so `"1.2.3.x"` — whose fourth segment `"x"` is
non-numeric — parses successfully to `(1, 2, 3)`. -/
theorem claim_C6_counterexample :
    pyInt (pyStr "x") = none ∧
    Version.parse (pyStr "1.2.3.x") = .ok (1, 2, 3) := by
  refine ⟨by decide, by decide⟩

/-- C6 amended: if any of the segments the parser consults — the first, and
the second and third when present — is non-numeric (rejected by `int()`),
`parse` fails with `ValueError` (the spec's `MalformedVersionError`); segments
beyond the third are ignored. -/
theorem claim_C6 (s p0 : List Char) (rest : List (List Char))
    (hsplit : pySplit '.' (stripLeadingV s) = p0 :: rest)
    (hbad : pyInt p0 = none ∨
      (∃ p1 r, rest = p1 :: r ∧ pyInt p1 = none) ∨
      (∃ p1 p2 r, rest = p1 :: p2 :: r ∧ pyInt p2 = none)) :
    Version.parse s = .error .valueError := by
  rcases hbad with h0 | ⟨p1, r1, hr, h1⟩ | ⟨p1, p2, r2, hr, h2⟩
  · simp [Version.parse, hsplit, h0]
  · subst hr
    simp only [Version.parse, hsplit]
    cases pyInt p0 with
    | none => rfl
    | some major => simp [h1]
  · subst hr
    simp only [Version.parse, hsplit]
    cases pyInt p0 with
    | none => rfl
    | some major =>
      cases hm : pyInt p1 with
      | none => simp
      | some minor => simp [h2]

/-- C6 witness: instantiation of the amended claim at `"1.x"`. -/
theorem claim_C6_witness :
    Version.parse (pyStr "1.x") = .error .valueError :=
  claim_C6 (pyStr "1.x") (pyStr "1") [pyStr "x"] (by decide)
    (Or.inr (Or.inl ⟨pyStr "x", [], rfl, by decide⟩))

/-- C9: `parse` strips one leading `'v'` and defaults missing minor and patch
components to 0. -/
theorem claim_C9 :
    Version.parse (pyStr "v1.2.3") = .ok (1, 2, 3) ∧
    Version.parse (pyStr "2") = .ok (2, 0, 0) ∧
    Version.parse (pyStr "v3.4") = .ok (3, 4, 0) := by
  refine ⟨by decide, by decide, by decide⟩

/-- C10: for every string `s` that `parse` accepts with triple `t`, the
constructor stores the canonical string `'v{major}.{minor}.{patch}'`, parsing
that stored string yields the same triple `t` again, and construction is
idempotent: building a `Version` from the stored string yields the same
object. -/
theorem claim_C10 (s : List Char) (t : Int × Int × Int)
    (h : Version.parse s = .ok t) :
    Version.init s = .ok ⟨fmtVersion t⟩ ∧
    Version.parse (fmtVersion t) = .ok t ∧
    Version.init (fmtVersion t) = .ok ⟨fmtVersion t⟩ := by
  refine ⟨?_, parse_fmtVersion t, ?_⟩
  · simp [Version.init, h]
  · simp [Version.init, parse_fmtVersion]

/-- C10 witness: instantiation at `"1.2"`, whose triple is `(1, 2, 0)`. -/
theorem claim_C10_witness :
    Version.init (pyStr "1.2") = .ok ⟨fmtVersion (1, 2, 0)⟩ ∧
    Version.parse (fmtVersion (1, 2, 0)) = .ok (1, 2, 0) ∧
    Version.init (fmtVersion (1, 2, 0)) = .ok ⟨fmtVersion (1, 2, 0)⟩ :=
  claim_C10 (pyStr "1.2") (1, 2, 0) (by decide)

/-- C2 counterexample: the claim states that an EMPTY file list also fails
with `FilesNotSetErr`, but the code only checks `files_to_download == None`:
with `update = true`, an available update and `files_to_download = []`, the
call proceeds into `update_from_github` (which downloads nothing) and
succeeds instead of failing. -/
theorem claim_C2_counterexample :
    check_for_updates_in_github (pyStr "/cwd") VFState.init (pyStr "1.0.0")
      false none true (some []) (some (pyStr "/dl")) none
      (.resp ⟨200, some (pyStr "2.0.0")⟩) (.resp ⟨200, some (pyStr "2.0.0")⟩) =
    .ok ⟨⟨false, true⟩, none, []⟩ := by decide

/-- C2 amended: with `update = true` and an update available, only an ABSENT
file list (`files_to_download = None`) fails with `FilesNotSetErr`; the error
is raised before the download request is issued (the result is this error for
every outcome `netUpd` of the nested download call).  An empty list is
accepted and the update proceeds. -/
theorem claim_C2 (cwd : List Char) (st : VFState) (cv : List Char)
    (priv : Bool) (tok : Option (List Char)) (hw : Option Headers × List Warn)
    (dir : Option (List Char)) (hook : Option Unit) (netUpd : Transport)
    (r : GHResponse) (tag : List Char)
    (hres : resolveHeaders priv tok = .ok hw)
    (hok : ¬(400 ≤ r.status ∧ r.status < 600))
    (htag : r.tagName = some tag)
    (hgt : (Version.init tag).bind (fun v => v.is_greater_than cv) = .ok true) :
    check_for_updates_in_github cwd st cv priv tok true none dir hook
      (.resp r) netUpd = .error .filesNotSetErr := by
  obtain ⟨hd, w1⟩ := hw
  cases hv : Version.init tag with
  | error e => rw [hv] at hgt; simp [Except.bind] at hgt
  | ok v =>
    rw [hv] at hgt
    simp only [Except.bind] at hgt
    simp [check_for_updates_in_github, hres, getResponse, raiseForStatus,
      hok, htag, hv, hgt]

/-- C2 witness: instantiation with an absent file list. -/
theorem claim_C2_witness :
    check_for_updates_in_github (pyStr "/cwd") VFState.init (pyStr "1.0.0")
      false none true none (some (pyStr "/dl")) none
      (.resp ⟨200, some (pyStr "2.0.0")⟩) (.resp ⟨200, none⟩) =
    .error .filesNotSetErr :=
  claim_C2 (pyStr "/cwd") VFState.init (pyStr "1.0.0") false none (none, [])
    (some (pyStr "/dl")) none (.resp ⟨200, none⟩) ⟨200, some (pyStr "2.0.0")⟩
    (pyStr "2.0.0") (by decide) (by decide) (by decide) (by decide)

/-- C3: the claim states that every successful `update_from_github` call saves
each listed file under the destination directory and then invokes the
post-download hook.  The function body, however, ends right after
`raise_for_status()` (line 210 of `core.py` is an empty comment): every
successful call downloads NO file and never invokes `update_method`,
whatever the file list, directory and hook arguments were. -/
theorem claim_C3 (cwd : List Char) (files : List (List Char))
    (dir : Option (List Char)) (priv : Bool) (tok : Option (List Char))
    (hook : Option Unit) (net : Transport) (u : UpdateResult)
    (h : update_from_github cwd files dir priv tok hook net = .ok u) :
    u.downloaded = [] ∧ u.hookInvoked = false := by
  rcases hres : resolveHeaders priv tok with e | ⟨hd, w2⟩ <;>
    rcases dir with _ | d <;>
    simp only [update_from_github, hres, error_bind, ok_bind] at h
  · exact absurd h (by simp)
  · exact absurd h (by simp)
  all_goals (
    rcases net with e | r <;>
      simp only [getResponse, error_bind, ok_bind] at h
    · exact absurd h (by simp)
    · simp only [raiseForStatus] at h
      split at h
      · exact absurd h (by simp)
      · simp only [ok_bind, except_pure_eq, Except.ok.injEq] at h
        subst h
        exact ⟨rfl, rfl⟩)

/-- C3 witness: a concrete successful call, with a file list, a destination
directory and a hook supplied. -/
theorem claim_C3_witness :
    update_from_github (pyStr "/cwd") [pyStr "a.txt"] (some (pyStr "/dl"))
      false none (some ()) (.resp ⟨200, some (pyStr "v1.1.0")⟩) =
      .ok ⟨[], false, []⟩ ∧
    (([] : List (List Char × List Char)) = [] ∧ false = false) :=
  ⟨by decide,
    claim_C3 (pyStr "/cwd") [pyStr "a.txt"] (some (pyStr "/dl")) false none
      (some ()) (.resp ⟨200, some (pyStr "v1.1.0")⟩) ⟨[], false, []⟩ (by decide)⟩

/-- C7: credential handling of both orchestrator operations.  `private = true`
with no token fails with `GitHubTokenErr` whatever the network outcome (so
before any request); `private = true` with a token attaches the
`Authorization: token {t}` header; `private = false` with a token emits the
`PrivateRepositoryWarning` advisory, still attaches the same header, and the
call proceeds without error. -/
theorem claim_C7 :
    (∀ cwd st cv upd files dir hook netH netU,
      check_for_updates_in_github cwd st cv true none upd files dir hook
        netH netU = .error .gitHubTokenErr) ∧
    (∀ cwd files dir hook net,
      update_from_github cwd files dir true none hook net =
        .error .gitHubTokenErr) ∧
    (∀ tok, resolveHeaders true (some tok) = .ok (some (tokenHeaders tok), [])) ∧
    (∀ tok, resolveHeaders false (some tok) =
      .ok (some (tokenHeaders tok), [.privateRepositoryWarning])) ∧
    (∀ cwd files d tok hook r, ¬(400 ≤ r.status ∧ r.status < 600) →
      update_from_github cwd files (some d) false (some tok) hook (.resp r) =
        .ok ⟨[], false, [.privateRepositoryWarning]⟩) ∧
    (∀ cwd st cv tok netU r tag gt, ¬(400 ≤ r.status ∧ r.status < 600) →
      r.tagName = some tag →
      (Version.init tag).bind (fun v => v.is_greater_than cv) = .ok gt →
      ∃ res, check_for_updates_in_github cwd st cv false (some tok) false none
        none none (.resp r) netU = .ok res ∧
        res.warnings = [Warn.privateRepositoryWarning]) := by
  refine ⟨?_, ?_, fun _ => rfl, fun _ => rfl, ?_, ?_⟩
  · intro cwd st cv upd files dir hook netH netU
    simp [check_for_updates_in_github, resolveHeaders]
  · intro cwd files dir hook net
    rcases dir with _ | d <;> simp [update_from_github, resolveHeaders]
  · intro cwd files d tok hook r hok
    simp [update_from_github, resolveHeaders, getResponse, raiseForStatus, hok]
  · intro cwd st cv tok netU r tag gt hok htag hgt
    cases hv : Version.init tag with
    | error e => rw [hv] at hgt; simp [Except.bind] at hgt
    | ok v =>
      rw [hv] at hgt
      simp only [Except.bind] at hgt
      cases gt with
      | false =>
        exact ⟨⟨st, none, [Warn.privateRepositoryWarning]⟩,
          by simp [check_for_updates_in_github, resolveHeaders, getResponse,
            raiseForStatus, hok, htag, hv, hgt], rfl⟩
      | true =>
        exact ⟨⟨{ st with update_available := true }, some tag,
            [Warn.privateRepositoryWarning]⟩,
          by simp [check_for_updates_in_github, resolveHeaders, getResponse,
            raiseForStatus, hok, htag, hv, hgt], rfl⟩

/-- C7 witness: concrete instantiations of the conditional conjuncts. -/
theorem claim_C7_witness :
    update_from_github (pyStr "/cwd") [] (some (pyStr "/dl")) false
      (some (pyStr "TOKEN")) none (.resp ⟨200, none⟩) =
      .ok ⟨[], false, [.privateRepositoryWarning]⟩ ∧
    (∃ res, check_for_updates_in_github (pyStr "/cwd") VFState.init
      (pyStr "1.0.0") false (some (pyStr "TOKEN")) false none none none
      (.resp ⟨200, some (pyStr "2.0.0")⟩) (.resp ⟨200, none⟩) = .ok res ∧
      res.warnings = [Warn.privateRepositoryWarning]) :=
  ⟨claim_C7.2.2.2.2.1 (pyStr "/cwd") [] (pyStr "/dl") (pyStr "TOKEN") none
      ⟨200, none⟩ (by decide),
    claim_C7.2.2.2.2.2 (pyStr "/cwd") VFState.init (pyStr "1.0.0")
      (pyStr "TOKEN") (.resp ⟨200, none⟩) ⟨200, some (pyStr "2.0.0")⟩
      (pyStr "2.0.0") true (by decide) (by decide) (by decide)⟩

/-- C8: response handling of `check_for_updates_in_github`.  A non-success
HTTP status (4xx/5xx) fails with `ServerResponseErr`, and since
`current_version` is universally quantified the result does not depend on it:
no version comparison is attempted.  A success response whose payload lacks
`tag_name` fails with `ReleaseTagErr`, again for every `current_version`, so
the tag is compared only after it has been extracted. -/
theorem claim_C8 :
    (∀ cwd st cv priv tok upd files dir hook netU hw r,
      resolveHeaders priv tok = .ok hw → 400 ≤ r.status → r.status < 600 →
      check_for_updates_in_github cwd st cv priv tok upd files dir hook
        (.resp r) netU = .error .serverResponseErr) ∧
    (∀ cwd st cv priv tok upd files dir hook netU hw r,
      resolveHeaders priv tok = .ok hw → ¬(400 ≤ r.status ∧ r.status < 600) →
      r.tagName = none →
      check_for_updates_in_github cwd st cv priv tok upd files dir hook
        (.resp r) netU = .error .releaseTagErr) := by
  constructor
  · intro cwd st cv priv tok upd files dir hook netU hw r hres h1 h2
    obtain ⟨hd, w1⟩ := hw
    simp [check_for_updates_in_github, hres, getResponse, raiseForStatus, h1, h2]
  · intro cwd st cv priv tok upd files dir hook netU hw r hres hok htag
    obtain ⟨hd, w1⟩ := hw
    simp [check_for_updates_in_github, hres, getResponse, raiseForStatus,
      hok, htag]

/-- C8 witness: a 404 response fails with `ServerResponseErr`; a 200 response
without a `tag_name` field fails with `ReleaseTagErr`. -/
theorem claim_C8_witness :
    check_for_updates_in_github (pyStr "/cwd") VFState.init (pyStr "1.0.0")
      false none false none none none (.resp ⟨404, some (pyStr "2.0.0")⟩)
      (.resp ⟨200, none⟩) = .error .serverResponseErr ∧
    check_for_updates_in_github (pyStr "/cwd") VFState.init (pyStr "1.0.0")
      false none false none none none (.resp ⟨200, none⟩)
      (.resp ⟨200, none⟩) = .error .releaseTagErr :=
  ⟨claim_C8.1 (pyStr "/cwd") VFState.init (pyStr "1.0.0") false none false
      none none none (.resp ⟨200, none⟩) (none, [])
      ⟨404, some (pyStr "2.0.0")⟩ (by decide) (by decide) (by decide),
    claim_C8.2 (pyStr "/cwd") VFState.init (pyStr "1.0.0") false none false
      none none none (.resp ⟨200, none⟩) (none, []) ⟨200, none⟩
      (by decide) (by decide) (by decide)⟩

end VersionFlowSpec
